import Mathlib

/-!
Verification of the almetica game-server core against its specification.

The definitions below are a shallow embedding of the Rust sources:

* `src/protocol/serde/de.rs`   — the schema-driven packet body decoder;
* `src/ecs/event.rs`           — the event enumeration and its opcode dispatch;
* `src/ecs/system/connection_manager.rs` — the global-world connection manager.

Machine bytes are modelled as `Nat` values `< 256` in a `List Nat`; the
Rust `Vec<u8>` indexing panics (out-of-bounds slice accesses, `unwrap` on
`ucs2::decode`) are modelled by a dedicated `DeResult.panic` outcome,
distinct from the codec's `Error` results.
-/

/-- Error type of the codec and the connection systems.  The codec variants
mirror the constructors used in `src/protocol/serde/de.rs` (the `error.rs`
module itself is not part of the surveyed sources, but every constructor and
its position payload appears at its use site in `de.rs`); the last variants
mirror `AlmeticaError::NoEventMappingForPacket` (`src/ecs/event.rs`),
`Error::EntityNotSet` and the `std::str::from_utf8` failure propagated by
`handle_request_login_arbiter` (`src/ecs/system/connection_manager.rs`). -/
inductive Error where
  | DeserializeAnyNotSupported (pos : Nat)
  | DeserializeCharNotSupported (pos : Nat)
  | DeserializeBytesNotSupported (pos : Nat)
  | DeserializeOptionNotSupported (pos : Nat)
  | DeserializeMapNotSupported (pos : Nat)
  | DeserializeIdentifierNotSupported (pos : Nat)
  | DeserializeIgnoredAnyNotSupported (pos : Nat)
  | InvalidBoolEncoding (v : Nat) (pos : Nat)
  | OffsetOutsideData (pos : Nat) (target : Nat)
  | BytesTooBig (pos : Nat)
  | StringNotNullTerminated (pos : Nat)
  | InvalidSeqEntry (offset : Nat)
  | NoEventMappingForPacket
  | EntityNotSet
  | TicketNotUtf8
  deriving DecidableEq, Repr

/-- Outcome of running a piece of Rust code that may return `Ok`, return an
`Err` of the codec error type, or abort the process: `panic` models an
out-of-bounds `Vec` index or a failed `unwrap`, which in the source is not
reported through the error taxonomy at all. -/
inductive DeResult (α : Type) where
  | ok : α → DeResult α
  | err : Error → DeResult α
  | panic : DeResult α
  deriving DecidableEq, Repr

/-- State of the body decoder: the body byte vector and the cursor, mirroring
`struct Deserializer { data: Vec<u8>, pos: usize }` in `de.rs`. -/
structure Deserializer where
  data : List Nat
  pos : Nat
  deriving DecidableEq, Repr

/-- Little-endian value of a list of bytes (first byte is least significant). -/
def leVal : List Nat → Nat
  | [] => 0
  | b :: rest => b + 256 * leVal rest

/-- The bytes `data[pos..pos+n]`; `panic` when the slice bounds exceed the
vector length, exactly when the Rust range indexing `&data[pos..pos+n]`
panics. -/
def readBytes (data : List Nat) (pos n : Nat) : DeResult (List Nat) :=
  if pos + n ≤ data.length then .ok ((data.drop pos).take n) else .panic

/-- Little-endian `u16` at `pos`, as a total function on the underlying list
(used to state properties; the decoder itself goes through `sliceU16`). -/
def u16LE (data : List Nat) (pos : Nat) : Nat :=
  data.getD pos 0 + 256 * data.getD (pos + 1) 0

/-- `LittleEndian::read_u16(&data[pos..pos+2])`: panics when the two-byte
slice is out of bounds. -/
def sliceU16 (data : List Nat) (pos : Nat) : DeResult Nat :=
  if pos + 2 ≤ data.length then .ok (u16LE data pos) else .panic

/-- Translation of a wire offset into a body-buffer position, from
`Deserializer::abs_offset` in `de.rs`: the body vector does not include the
leading length/opcode header, so the source computes `offset - 4` on a
`usize` — except that an offset of `0` is passed through unchanged.  For the
offsets 1–3 the subtraction underflows; this is modelled with the wrapping
semantics of a release build (`2^64`-modular arithmetic), under which the
wrapped value exceeds every buffer length and each consumer's bounds check
rejects it (a debug build would abort at the subtraction itself instead). -/
def abs_offset (offset : Nat) : Nat :=
  if offset = 0 then offset else (offset + 2 ^ 64 - 4) % 2 ^ 64

/-- `deserialize_u8`: reads `self.data[self.pos]` with no bounds check
(`self.pos += 1; self.data[self.pos - 1]`), so a cursor at or past the end of
the data panics. -/
def deserialize_u8 (d : Deserializer) : DeResult (Nat × Deserializer) :=
  if d.pos < d.data.length then .ok (d.data.getD d.pos 0, ⟨d.data, d.pos + 1⟩)
  else .panic

/-- Two's-complement reading of an unsigned value of `n` bytes. -/
def toSigned (n : Nat) (v : Nat) : Int :=
  if v < 2 ^ (8 * n - 1) then (v : Int) else (v : Int) - 2 ^ (8 * n)

/-- `deserialize_i8`: same unchecked single-byte read as `deserialize_u8`,
interpreted as `i8`. -/
def deserialize_i8 (d : Deserializer) : DeResult (Int × Deserializer) :=
  if d.pos < d.data.length then
    .ok (toSigned 1 (d.data.getD d.pos 0), ⟨d.data, d.pos + 1⟩)
  else .panic

/-- The body shared by every `impl_nums!` instantiation in `de.rs`: read a
`size`-byte little-endian value at the cursor via an unchecked slice (panics
when fewer than `size` bytes remain) and advance the cursor by `size`. -/
def deserialize_num (size : Nat) (d : Deserializer) : DeResult (Nat × Deserializer) :=
  match readBytes d.data d.pos size with
  | .ok bs => .ok (leVal bs, ⟨d.data, d.pos + size⟩)
  | .err e => .err e
  | .panic => .panic

/-- `impl_nums!(u16, ...)`. -/
def deserialize_u16 (d : Deserializer) : DeResult (Nat × Deserializer) :=
  deserialize_num 2 d

/-- `impl_nums!(u32, ...)`. -/
def deserialize_u32 (d : Deserializer) : DeResult (Nat × Deserializer) :=
  deserialize_num 4 d

/-- `impl_nums!(u64, ...)`. -/
def deserialize_u64 (d : Deserializer) : DeResult (Nat × Deserializer) :=
  deserialize_num 8 d

/-- `impl_nums!(i16, ...)`, value interpreted in two's complement. -/
def deserialize_i16 (d : Deserializer) : DeResult (Int × Deserializer) :=
  match deserialize_num 2 d with
  | .ok (v, d1) => .ok (toSigned 2 v, d1)
  | .err e => .err e
  | .panic => .panic

/-- `impl_nums!(i32, ...)`, value interpreted in two's complement. -/
def deserialize_i32 (d : Deserializer) : DeResult (Int × Deserializer) :=
  match deserialize_num 4 d with
  | .ok (v, d1) => .ok (toSigned 4 v, d1)
  | .err e => .err e
  | .panic => .panic

/-- `impl_nums!(i64, ...)`, value interpreted in two's complement. -/
def deserialize_i64 (d : Deserializer) : DeResult (Int × Deserializer) :=
  match deserialize_num 8 d with
  | .ok (v, d1) => .ok (toSigned 8 v, d1)
  | .err e => .err e
  | .panic => .panic

/-- `impl_nums!(f32, ...)`: the four payload bytes are carried as the raw
little-endian bit pattern; no floating-point arithmetic is performed by the
decoder, so the bit pattern is a faithful model of the returned value. -/
def deserialize_f32 (d : Deserializer) : DeResult (Nat × Deserializer) :=
  deserialize_num 4 d

/-- `impl_nums!(f64, ...)`: eight payload bytes as the raw bit pattern. -/
def deserialize_f64 (d : Deserializer) : DeResult (Nat × Deserializer) :=
  deserialize_num 8 d

/-- `deserialize_bool`: reads one `u8` (remembering the cursor before the
read) and maps `1 ↦ true`, `0 ↦ false`, anything else to
`InvalidBoolEncoding(v, pos)`. -/
def deserialize_bool (d : Deserializer) : DeResult (Bool × Deserializer) :=
  match deserialize_u8 d with
  | .ok (v, d1) =>
    match v with
    | 1 => .ok (true, d1)
    | 0 => .ok (false, d1)
    | _ => .err (.InvalidBoolEncoding v d.pos)
  | .err e => .err e
  | .panic => .panic

/-- The terminator scan of `deserialize_str`: `for i in (start..len).step_by(2)`
looking for `data[i] == 0 && data[i+1] == 0`.  Returns `some i` for the first
two-byte null found, `none` when the loop runs off the end, and panics when
`data[i] == 0` holds at `i = len - 1` so that the short-circuited second
conjunct indexes one past the end of the vector.  The loop advances the index
by two per iteration, so the number of iterations is at most the data length;
it is therefore expressed structurally with `data.length` as fuel (see
`strPayload`), and the fuel cannot run out before the loop is done. -/
def scanNull (data : List Nat) : Nat → Nat → DeResult (Option Nat)
  | _, 0 => .ok none
  | i, fuel + 1 =>
    if i < data.length then
      if data.getD i 0 = 0 then
        if i + 1 < data.length then
          if data.getD (i + 1) 0 = 0 then .ok (some i)
          else scanNull data (i + 2) fuel
        else .panic
      else scanNull data (i + 2) fuel
    else .ok none

/-- The UCS-2 code units of the string payload `data[a .. t]` (where `t` is
the position of the terminator), mirroring the `aligned` vector built by
`deserialize_str`. -/
def strUnits (data : List Nat) (a t : Nat) : List Nat :=
  (List.range ((t - a) / 2)).map fun j => u16LE data (a + 2 * j)

/-- `true` when some code unit is a UTF-16 surrogate, which makes
`ucs2::decode(..).unwrap()` in `deserialize_str` panic. -/
def hasSurrogate (units : List Nat) : Bool :=
  units.any fun u => decide (0xD800 ≤ u ∧ u < 0xE000)

/-- Payload phase of `deserialize_str`, starting after the offset header has
been read and bounds-checked: scan for the terminator from body position
`absPos`, convert the code units, and return them with the cursor left at
`pos2` (the byte after the two-byte offset header).  The decoded string is
modelled as its list of UCS-2 code units. -/
def strPayload (data : List Nat) (absPos pos2 : Nat) : DeResult (List Nat × Deserializer) :=
  match scanNull data absPos data.length with
  | .ok (some t) =>
    let units := strUnits data absPos t
    if hasSurrogate units then .panic else .ok (units, ⟨data, pos2⟩)
  | .ok none => .err (.StringNotNullTerminated pos2)
  | .err e => .err e
  | .panic => .panic

/-- `deserialize_str`: read the `u16` offset header at the cursor, resolve it
through `abs_offset`, advance the cursor past the header, reject resolved
positions at or past the end of the data with `OffsetOutsideData`, then run
the payload scan. -/
def deserialize_str (d : Deserializer) : DeResult (List Nat × Deserializer) :=
  match sliceU16 d.data d.pos with
  | .ok tmp =>
    let absPos := abs_offset tmp
    let pos2 := d.pos + 2
    if absPos ≥ d.data.length then .err (.OffsetOutsideData pos2 absPos)
    else strPayload d.data absPos pos2
  | .err e => .err e
  | .panic => .panic

/-- `deserialize_byte_buf`: read the `u16` offset and `u16` length headers,
resolve the offset, reject with `BytesTooBig` when resolved offset plus
length exceeds the data length, and otherwise return that slice with the
cursor left after the four header bytes. -/
def deserialize_byte_buf (d : Deserializer) : DeResult (List Nat × Deserializer) :=
  match sliceU16 d.data d.pos with
  | .ok tmp =>
    let absOffset := abs_offset tmp
    match sliceU16 d.data (d.pos + 2) with
    | .ok len =>
      if absOffset + len > d.data.length then .err (.BytesTooBig (d.pos + 4))
      else .ok ((d.data.drop absOffset).take len, ⟨d.data, d.pos + 4⟩)
    | .err e => .err e
    | .panic => .panic
  | .err e => .err e
  | .panic => .panic

/-- The element loop of `deserialize_seq` (`next_element_seed` in `de.rs`).
Arguments mirror the fields of the `Access` struct: `count` elements remain,
`dataLen` is the data length captured when the loop began, `nextOff` is the
expected body position of the next element, `oldPos` the cursor position
right after the four-byte list header.  For each element: bounds-check the
expected offset, seek to it, read the element's `self_offset` and reject a
mismatch with `InvalidSeqEntry`, read its `next_offset` into the expected
offset for the next iteration, then decode the element inline with `ed`.
When no elements remain the cursor is restored to `oldPos`. -/
def seqElems {α : Type} (ed : Deserializer → DeResult (α × Deserializer)) :
    Nat → Nat → Nat → Nat → Deserializer → DeResult (List α × Deserializer)
  | 0, _, _, oldPos, d => .ok ([], ⟨d.data, oldPos⟩)
  | count + 1, dataLen, nextOff, oldPos, d =>
    if nextOff ≥ dataLen then .err (.OffsetOutsideData d.pos nextOff)
    else
      match sliceU16 d.data nextOff with
      | .ok tmp =>
        let selfOff := abs_offset tmp
        if selfOff ≠ nextOff then .err (.InvalidSeqEntry selfOff)
        else
          match sliceU16 d.data (nextOff + 2) with
          | .ok tmp2 =>
            let newNext := abs_offset tmp2
            match ed ⟨d.data, nextOff + 4⟩ with
            | .ok (a, d4) =>
              match seqElems ed count dataLen newNext oldPos d4 with
              | .ok (rest, d5) => .ok (a :: rest, d5)
              | .err e => .err e
              | .panic => .panic
            | .err e => .err e
            | .panic => .panic
          | .err e => .err e
          | .panic => .panic
      | .err e => .err e
      | .panic => .panic

/-- `deserialize_seq`: read the `u16` element count and the `u16` offset of
the first element, resolve the offset, remember the cursor position after the
four header bytes and the data length, and run the element loop. -/
def deserialize_seq {α : Type} (ed : Deserializer → DeResult (α × Deserializer))
    (d : Deserializer) : DeResult (List α × Deserializer) :=
  match sliceU16 d.data d.pos with
  | .ok count =>
    match sliceU16 d.data (d.pos + 2) with
    | .ok tmp =>
      let nextOff := abs_offset tmp
      let oldPos := d.pos + 4
      seqElems ed count d.data.length nextOff oldPos ⟨d.data, oldPos⟩
    | .err e => .err e
    | .panic => .panic
  | .err e => .err e
  | .panic => .panic

/-- One element of the `CCheckVersion.version` sequence: `{index: u32,
value: u32}` (layout fixed by the spec's schema for `CCheckVersion` and by
the `test_opcode_mapping` test in `src/ecs/event.rs`). -/
structure CCheckVersionEntry where
  index : Nat
  value : Nat
  deriving DecidableEq, Repr

/-- The `C_CHECK_VERSION` packet: one sequence of `CCheckVersionEntry`. -/
structure CCheckVersion where
  version : List CCheckVersionEntry
  deriving DecidableEq, Repr

/-- Decoder of a `CCheckVersionEntry`: two inline `u32` fields in declaration
order, as serde's derived struct decoding drives `deserialize_tuple`. -/
def decodeCCheckVersionEntry (d : Deserializer) : DeResult (CCheckVersionEntry × Deserializer) :=
  match deserialize_u32 d with
  | .ok (i, d1) =>
    match deserialize_u32 d1 with
    | .ok (v, d2) => .ok (⟨i, v⟩, d2)
    | .err e => .err e
    | .panic => .panic
  | .err e => .err e
  | .panic => .panic

/-- Decoder of a `CCheckVersion` body: a single sequence field. -/
def decodeCCheckVersion (d : Deserializer) : DeResult (CCheckVersion × Deserializer) :=
  match deserialize_seq decodeCCheckVersionEntry d with
  | .ok (l, d1) => .ok (⟨l⟩, d1)
  | .err e => .err e
  | .panic => .panic

/-- `from_vec::<CCheckVersion>`: run the decoder from position 0 and discard
the final state (the decoder does not reject trailing bytes). -/
def fromVecCCheckVersion (v : List Nat) : DeResult CCheckVersion :=
  match decodeCCheckVersion ⟨v, 0⟩ with
  | .ok (p, _) => .ok p
  | .err e => .err e
  | .panic => .panic

/-- The 28-byte `C_CHECK_VERSION` body of spec scenario 1 and of the
`test_opcode_mapping` test in `src/ecs/event.rs`. -/
def checkVersionBody : List Nat :=
  [0x02, 0x00, 0x08, 0x00, 0x08, 0x00, 0x14, 0x00, 0x00, 0x00, 0x00, 0x00,
   0x1d, 0x8a, 0x05, 0x00, 0x14, 0x00, 0x00, 0x00, 0x01, 0x00, 0x00, 0x00,
   0xce, 0x7b, 0x05, 0x00]

/-- Region of a connecting client.  The `Region` enum lives in `src/model`,
which is not among the surveyed sources; on the wire it is a 32-bit
enumeration, and the connection manager only copies it, so it is modelled by
its numeric discriminant. -/
abbrev Region := Nat

/-- The `C_LOGIN_ARBITER` packet.  Field names and types are those used by
`src/ecs/event.rs` (test `test_target_global`) and
`src/ecs/system/connection_manager.rs`: `master_account_name` is a string
(modelled as its UCS-2 code units), `ticket` a byte buffer.  The exact
integer widths of `unk1`, `unk2` and `patch_version` are fixed in the
packet module, which is not among the surveyed sources. -/
structure CLoginArbiter where
  master_account_name : List Nat
  ticket : List Nat
  unk1 : Nat
  unk2 : Nat
  region : Region
  patch_version : Nat
  deriving DecidableEq, Repr

/-- The `S_LOGIN_ARBITER` packet, with exactly the fields constructed by
`accept_login_arbiter` / `reject_login_arbiter` in
`src/ecs/system/connection_manager.rs`. -/
structure SLoginArbiter where
  success : Bool
  login_queue : Bool
  status : Nat
  unk1 : Nat
  region : Region
  pvp_disabled : Bool
  unk2 : Nat
  unk3 : Nat
  deriving DecidableEq, Repr

/-- The `S_CHECK_VERSION` packet: a single boolean, as constructed by
`accept_check_version` / `reject_check_version` in the connection manager. -/
structure SCheckVersion where
  ok : Bool
  deriving DecidableEq, Repr

/-- The `S_LOADING_SCREEN_CONTROL_INFO` packet: a single boolean, as
constructed by `assemble_loading_screen_info` in the connection manager. -/
structure SLoadingScreenControlInfo where
  custom_screen_enabled : Bool
  deriving DecidableEq, Repr

/-- Modelled from the spec: the packet module defining `SRemainPlayTime` is
not among the surveyed sources and no claim depends on its fields; it is
modelled as an abstract record, which preserves the identity of the event
variant carrying it. -/
structure SRemainPlayTime where
  deriving DecidableEq, Repr

/-- Modelled from the spec: `SLoginAccountInfo` field layout unavailable, as
for `SRemainPlayTime`. -/
structure SLoginAccountInfo where
  deriving DecidableEq, Repr

/-- Modelled from the spec: `CSetVisibleRange` field layout unavailable, as
for `SRemainPlayTime`. -/
structure CSetVisibleRange where
  deriving DecidableEq, Repr

/-- Modelled from the spec: `CGetUserList` field layout unavailable, as for
`SRemainPlayTime`. -/
structure CGetUserList where
  deriving DecidableEq, Repr

/-- Modelled from the spec: `SGetUserList` field layout unavailable, as for
`SRemainPlayTime`. -/
structure SGetUserList where
  deriving DecidableEq, Repr

/-- Modelled from the spec: `CPong` field layout unavailable, as for
`SRemainPlayTime`. -/
structure CPong where
  deriving DecidableEq, Repr

/-- Modelled from the spec: `SPing` field layout unavailable, as for
`SRemainPlayTime`. -/
structure SPing where
  deriving DecidableEq, Repr

/-- Modelled from the spec: `CCanCreateUser` field layout unavailable, as for
`SRemainPlayTime`. -/
structure CCanCreateUser where
  deriving DecidableEq, Repr

/-- Modelled from the spec: `SCanCreateUser` field layout unavailable, as for
`SRemainPlayTime`. -/
structure SCanCreateUser where
  deriving DecidableEq, Repr

/-- Modelled from the spec: `CCheckUserName` field layout unavailable, as for
`SRemainPlayTime`. -/
structure CCheckUserName where
  deriving DecidableEq, Repr

/-- Modelled from the spec: `SCheckUserName` field layout unavailable, as for
`SRemainPlayTime`. -/
structure SCheckUserName where
  deriving DecidableEq, Repr

/-- Modelled from the spec: `CCreateUser` field layout unavailable, as for
`SRemainPlayTime`. -/
structure CCreateUser where
  deriving DecidableEq, Repr

/-- Modelled from the spec: `SCreateUser` field layout unavailable, as for
`SRemainPlayTime`. -/
structure SCreateUser where
  deriving DecidableEq, Repr

/-- Decoder of an `S_CHECK_VERSION` body: one inline boolean. -/
def fromVecSCheckVersion (v : List Nat) : DeResult SCheckVersion :=
  match deserialize_bool ⟨v, 0⟩ with
  | .ok (b, _) => .ok ⟨b⟩
  | .err e => .err e
  | .panic => .panic

/-- Decoder of an `S_LOADING_SCREEN_CONTROL_INFO` body: one inline boolean. -/
def fromVecSLoadingScreenControlInfo (v : List Nat) : DeResult SLoadingScreenControlInfo :=
  match deserialize_bool ⟨v, 0⟩ with
  | .ok (b, _) => .ok ⟨b⟩
  | .err e => .err e
  | .panic => .panic

/-- Decoder of a `C_LOGIN_ARBITER` body, fields in declaration order.
Modelled from the spec for the unknown integer widths (taken as `u32`); the
string and byte-buffer fields follow `deserialize_str` and
`deserialize_byte_buf` of `de.rs`. -/
def fromVecCLoginArbiter (v : List Nat) : DeResult CLoginArbiter :=
  match deserialize_str ⟨v, 0⟩ with
  | .ok (name, d1) =>
    match deserialize_byte_buf d1 with
    | .ok (ticket, d2) =>
      match deserialize_u32 d2 with
      | .ok (u1, d3) =>
        match deserialize_u32 d3 with
        | .ok (u2, d4) =>
          match deserialize_u32 d4 with
          | .ok (reg, d5) =>
            match deserialize_u32 d5 with
            | .ok (pv, _) => .ok ⟨name, ticket, u1, u2, reg, pv⟩
            | .err e => .err e
            | .panic => .panic
          | .err e => .err e
          | .panic => .panic
        | .err e => .err e
        | .panic => .panic
      | .err e => .err e
      | .panic => .panic
    | .err e => .err e
    | .panic => .panic
  | .err e => .err e
  | .panic => .panic

/-- Decoder of an `S_LOGIN_ARBITER` body, fields in declaration order.
Modelled from the spec for the unknown integer widths (taken as `u32`). -/
def fromVecSLoginArbiter (v : List Nat) : DeResult SLoginArbiter :=
  match deserialize_bool ⟨v, 0⟩ with
  | .ok (succ, d1) =>
    match deserialize_bool d1 with
    | .ok (lq, d2) =>
      match deserialize_u32 d2 with
      | .ok (st, d3) =>
        match deserialize_u32 d3 with
        | .ok (u1, d4) =>
          match deserialize_u32 d4 with
          | .ok (reg, d5) =>
            match deserialize_bool d5 with
            | .ok (pvp, d6) =>
              match deserialize_u32 d6 with
              | .ok (u2, d7) =>
                match deserialize_u32 d7 with
                | .ok (u3, _) => .ok ⟨succ, lq, st, u1, reg, pvp, u2, u3⟩
                | .err e => .err e
                | .panic => .panic
              | .err e => .err e
              | .panic => .panic
            | .err e => .err e
            | .panic => .panic
          | .err e => .err e
          | .panic => .panic
        | .err e => .err e
        | .panic => .panic
      | .err e => .err e
      | .panic => .panic
    | .err e => .err e
    | .panic => .panic
  | .err e => .err e
  | .panic => .panic

/-- Modelled from the spec: trivial decoder for a packet whose layout is
unavailable (see `SRemainPlayTime`); it succeeds without reading, preserving
only the dispatch structure of `new_from_packet`. -/
def fromVecSRemainPlayTime (_v : List Nat) : DeResult SRemainPlayTime := .ok ⟨⟩

/-- Modelled from the spec: trivial decoder, as for `fromVecSRemainPlayTime`. -/
def fromVecSLoginAccountInfo (_v : List Nat) : DeResult SLoginAccountInfo := .ok ⟨⟩

/-- Modelled from the spec: trivial decoder, as for `fromVecSRemainPlayTime`. -/
def fromVecCSetVisibleRange (_v : List Nat) : DeResult CSetVisibleRange := .ok ⟨⟩

/-- Modelled from the spec: trivial decoder, as for `fromVecSRemainPlayTime`. -/
def fromVecCGetUserList (_v : List Nat) : DeResult CGetUserList := .ok ⟨⟩

/-- Modelled from the spec: trivial decoder, as for `fromVecSRemainPlayTime`. -/
def fromVecSGetUserList (_v : List Nat) : DeResult SGetUserList := .ok ⟨⟩

/-- Modelled from the spec: trivial decoder, as for `fromVecSRemainPlayTime`. -/
def fromVecCPong (_v : List Nat) : DeResult CPong := .ok ⟨⟩

/-- Modelled from the spec: trivial decoder, as for `fromVecSRemainPlayTime`. -/
def fromVecSPing (_v : List Nat) : DeResult SPing := .ok ⟨⟩

/-- Modelled from the spec: trivial decoder, as for `fromVecSRemainPlayTime`. -/
def fromVecCCanCreateUser (_v : List Nat) : DeResult CCanCreateUser := .ok ⟨⟩

/-- Modelled from the spec: trivial decoder, as for `fromVecSRemainPlayTime`. -/
def fromVecSCanCreateUser (_v : List Nat) : DeResult SCanCreateUser := .ok ⟨⟩

/-- Modelled from the spec: trivial decoder, as for `fromVecSRemainPlayTime`. -/
def fromVecCCheckUserName (_v : List Nat) : DeResult CCheckUserName := .ok ⟨⟩

/-- Modelled from the spec: trivial decoder, as for `fromVecSRemainPlayTime`. -/
def fromVecSCheckUserName (_v : List Nat) : DeResult SCheckUserName := .ok ⟨⟩

/-- Modelled from the spec: trivial decoder, as for `fromVecSRemainPlayTime`. -/
def fromVecCCreateUser (_v : List Nat) : DeResult CCreateUser := .ok ⟨⟩

/-- Modelled from the spec: trivial decoder, as for `fromVecSRemainPlayTime`. -/
def fromVecSCreateUser (_v : List Nat) : DeResult SCreateUser := .ok ⟨⟩

/-- Opcodes, from `src/protocol/opcode.rs`.  That module is not among the
surveyed sources; the variants listed here are exactly the ones named in the
`assemble_event!` invocation of `src/ecs/event.rs`, and `UNMAPPED code`
stands for every other variant of the real enum, all of which fall into the
wildcard arm of `new_from_packet`. -/
inductive Opcode where
  | C_LOGIN_ARBITER
  | S_LOGIN_ARBITER
  | C_CHECK_VERSION
  | S_CHECK_VERSION
  | S_LOADING_SCREEN_CONTROL_INFO
  | S_REMAIN_PLAY_TIME
  | S_LOGIN_ACCOUNT_INFO
  | C_SET_VISIBLE_RANGE
  | C_GET_USER_LIST
  | S_GET_USER_LIST
  | C_PONG
  | S_PING
  | C_CAN_CREATE_USER
  | S_CAN_CREATE_USER
  | C_CHECK_USERNAME
  | S_CHECK_USERNAME
  | C_CREATE_USER
  | S_CREATE_USER
  | UNMAPPED (code : Nat)
  deriving DecidableEq, Repr

/-- Entity ids (`shipyard::EntityId` / `legion::Entity`), modelled as `Nat`. -/
abbrev EntityId := Nat

/-- The event enum produced by the `assemble_event!` macro in
`src/ecs/event.rs`: `RequestRegisterConnection` (its response channel
modelled as a channel id), the eighteen packet events in declaration order,
and the two system events.  Every variant except
`RequestRegisterConnection` carries a connection id. -/
inductive Event where
  | RequestRegisterConnection (response_channel : Nat)
  | RequestLoginArbiter (connection_id : EntityId) (packet : CLoginArbiter)
  | ResponseLoginArbiter (connection_id : EntityId) (packet : SLoginArbiter)
  | RequestCheckVersion (connection_id : EntityId) (packet : CCheckVersion)
  | ResponseCheckVersion (connection_id : EntityId) (packet : SCheckVersion)
  | ResponseLoadingScreenControlInfo (connection_id : EntityId) (packet : SLoadingScreenControlInfo)
  | ResponseRemainPlayTime (connection_id : EntityId) (packet : SRemainPlayTime)
  | ResponseLoginAccountInfo (connection_id : EntityId) (packet : SLoginAccountInfo)
  | RequestSetVisibleRange (connection_id : EntityId) (packet : CSetVisibleRange)
  | RequestGetUserList (connection_id : EntityId) (packet : CGetUserList)
  | ResponseGetUserList (connection_id : EntityId) (packet : SGetUserList)
  | RequestPong (connection_id : EntityId) (packet : CPong)
  | ResponsePing (connection_id : EntityId) (packet : SPing)
  | RequestCanCreateUser (connection_id : EntityId) (packet : CCanCreateUser)
  | ResponseCanCreateUser (connection_id : EntityId) (packet : SCanCreateUser)
  | RequestCheckUserName (connection_id : EntityId) (packet : CCheckUserName)
  | ResponseCheckUserName (connection_id : EntityId) (packet : SCheckUserName)
  | RequestCreateUser (connection_id : EntityId) (packet : CCreateUser)
  | ResponseCreateUser (connection_id : EntityId) (packet : SCreateUser)
  | ResponseRegisterConnection (connection_id : EntityId)
  | ResponseDropConnection (connection_id : EntityId)
  deriving DecidableEq, Repr

/-- Propagation of a decode result into an event construction, the shape of
each generated arm `let packet = from_vec(packet_data)?; Ok(Event::X {..})`. -/
def DeResult.mapD {α β : Type} : DeResult α → (α → β) → DeResult β
  | .ok a, f => .ok (f a)
  | .err e, _ => .err e
  | .panic, _ => .panic

/-- `Event::new_from_packet`: dispatch on the opcode; every opcode named in
the `assemble_event!` packet-event list (requests and responses alike)
decodes the body with the codec and wraps it in the corresponding variant;
every other opcode is rejected with `NoEventMappingForPacket`. -/
def Event.new_from_packet (connection_id : EntityId) (opcode : Opcode)
    (packet_data : List Nat) : DeResult Event :=
  match opcode with
  | .C_LOGIN_ARBITER => (fromVecCLoginArbiter packet_data).mapD (.RequestLoginArbiter connection_id)
  | .S_LOGIN_ARBITER => (fromVecSLoginArbiter packet_data).mapD (.ResponseLoginArbiter connection_id)
  | .C_CHECK_VERSION => (fromVecCCheckVersion packet_data).mapD (.RequestCheckVersion connection_id)
  | .S_CHECK_VERSION => (fromVecSCheckVersion packet_data).mapD (.ResponseCheckVersion connection_id)
  | .S_LOADING_SCREEN_CONTROL_INFO =>
    (fromVecSLoadingScreenControlInfo packet_data).mapD (.ResponseLoadingScreenControlInfo connection_id)
  | .S_REMAIN_PLAY_TIME => (fromVecSRemainPlayTime packet_data).mapD (.ResponseRemainPlayTime connection_id)
  | .S_LOGIN_ACCOUNT_INFO => (fromVecSLoginAccountInfo packet_data).mapD (.ResponseLoginAccountInfo connection_id)
  | .C_SET_VISIBLE_RANGE => (fromVecCSetVisibleRange packet_data).mapD (.RequestSetVisibleRange connection_id)
  | .C_GET_USER_LIST => (fromVecCGetUserList packet_data).mapD (.RequestGetUserList connection_id)
  | .S_GET_USER_LIST => (fromVecSGetUserList packet_data).mapD (.ResponseGetUserList connection_id)
  | .C_PONG => (fromVecCPong packet_data).mapD (.RequestPong connection_id)
  | .S_PING => (fromVecSPing packet_data).mapD (.ResponsePing connection_id)
  | .C_CAN_CREATE_USER => (fromVecCCanCreateUser packet_data).mapD (.RequestCanCreateUser connection_id)
  | .S_CAN_CREATE_USER => (fromVecSCanCreateUser packet_data).mapD (.ResponseCanCreateUser connection_id)
  | .C_CHECK_USERNAME => (fromVecCCheckUserName packet_data).mapD (.RequestCheckUserName connection_id)
  | .S_CHECK_USERNAME => (fromVecSCheckUserName packet_data).mapD (.ResponseCheckUserName connection_id)
  | .C_CREATE_USER => (fromVecCCreateUser packet_data).mapD (.RequestCreateUser connection_id)
  | .S_CREATE_USER => (fromVecSCreateUser packet_data).mapD (.ResponseCreateUser connection_id)
  | .UNMAPPED _ => .err .NoEventMappingForPacket

/-- `Event::opcode`: the opcode of a packet event, `none` for
`RequestRegisterConnection` and the system events. -/
def Event.opcode : Event → Option Opcode
  | .RequestRegisterConnection _ => none
  | .RequestLoginArbiter _ _ => some .C_LOGIN_ARBITER
  | .ResponseLoginArbiter _ _ => some .S_LOGIN_ARBITER
  | .RequestCheckVersion _ _ => some .C_CHECK_VERSION
  | .ResponseCheckVersion _ _ => some .S_CHECK_VERSION
  | .ResponseLoadingScreenControlInfo _ _ => some .S_LOADING_SCREEN_CONTROL_INFO
  | .ResponseRemainPlayTime _ _ => some .S_REMAIN_PLAY_TIME
  | .ResponseLoginAccountInfo _ _ => some .S_LOGIN_ACCOUNT_INFO
  | .RequestSetVisibleRange _ _ => some .C_SET_VISIBLE_RANGE
  | .RequestGetUserList _ _ => some .C_GET_USER_LIST
  | .ResponseGetUserList _ _ => some .S_GET_USER_LIST
  | .RequestPong _ _ => some .C_PONG
  | .ResponsePing _ _ => some .S_PING
  | .RequestCanCreateUser _ _ => some .C_CAN_CREATE_USER
  | .ResponseCanCreateUser _ _ => some .S_CAN_CREATE_USER
  | .RequestCheckUserName _ _ => some .C_CHECK_USERNAME
  | .ResponseCheckUserName _ _ => some .S_CHECK_USERNAME
  | .RequestCreateUser _ _ => some .C_CREATE_USER
  | .ResponseCreateUser _ _ => some .S_CREATE_USER
  | .ResponseRegisterConnection _ => none
  | .ResponseDropConnection _ => none

/-- `true` for the eighteen opcodes that appear in the packet-event list of
`assemble_event!` (and therefore have a dedicated arm in
`new_from_packet`); `false` for every other opcode. -/
def opcodeHasPacketMapping : Opcode → Bool
  | .UNMAPPED _ => false
  | _ => true

/-- Body of a sequence with count 1 whose element's stored `self_offset`
resolves to body position 5 instead of the expected position 4. -/
def seqBadSelfOffset : List Nat :=
  [0x01, 0x00, 0x08, 0x00, 0x09, 0x00, 0x00, 0x00]

/-- Body of a well-formed single-element sequence of one
`{index: u32, value: u32}` entry `{index: 42, value: 7}`. -/
def seqSingleGood : List Nat :=
  [0x01, 0x00, 0x08, 0x00, 0x08, 0x00, 0x00, 0x00,
   42, 0, 0, 0, 7, 0, 0, 0]

/-- The `Connection` component attached to a connection entity, with the two
handshake flags manipulated by the connection manager. -/
structure Connection where
  verified : Bool
  version_checked : Bool
  deriving DecidableEq, Repr

/-- The event values handled and constructed by
`src/ecs/system/connection_manager.rs`.  That file belongs to a later
snapshot of the repository than `src/ecs/event.rs`: there the packet-event
variants carry an optional connection entity (`connection: Option<Entity>`);
only the variants the connection manager matches on or constructs are
modelled here. -/
inductive CmEvent where
  | RequestRegisterConnection (response_channel : Nat)
  | RequestCheckVersion (connection : Option EntityId) (packet : CCheckVersion)
  | RequestLoginArbiter (connection : Option EntityId) (packet : CLoginArbiter)
  | ResponseRegisterConnection (connection : Option EntityId)
  | ResponseCheckVersion (connection : Option EntityId) (packet : SCheckVersion)
  | ResponseLoginArbiter (connection : Option EntityId) (packet : SLoginArbiter)
  | ResponseLoadingScreenControlInfo (connection : Option EntityId)
      (packet : SLoadingScreenControlInfo)
  deriving DecidableEq, Repr

/-- The slice of the legion `SubWorld` the connection manager accesses: the
`Connection` components keyed by entity id. -/
abbrev World := List (EntityId × Connection)

/-- `world.get_component_mut::<Connection>(entity)`: the component lookup. -/
def getComponent : World → EntityId → Option Connection
  | [], _ => none
  | (e1, c) :: rest, e => if e1 = e then some c else getComponent rest e

/-- Writing back a mutated `Connection` component for an entity. -/
def setComponent : World → EntityId → Connection → World
  | [], _, _ => []
  | (e1, c) :: rest, e, c2 =>
    if e1 = e then (e1, c2) :: setComponent rest e c2
    else (e1, c) :: setComponent rest e c2

/-- `true` on the UTF-8 continuation-byte range `0x80..0xBF`. -/
def isCont (b : Nat) : Bool := decide (0x80 ≤ b ∧ b < 0xC0)

/-- Validity of a byte sequence as UTF-8: the check performed by
`std::str::from_utf8` on the login-arbiter ticket (RFC 3629 ranges: lead
bytes C2–DF with one continuation; E0 with A0–BF, ED with 80–9F, other
E1–EF with 80–BF, then one more continuation; F0 with 90–BF, F4 with
80–8F, F1–F3 with 80–BF, then two more continuations). -/
def validUtf8 : List Nat → Bool
  | [] => true
  | b :: rest =>
    if b < 0x80 then validUtf8 rest
    else if b < 0xC2 then false
    else if b < 0xE0 then
      match rest with
      | c1 :: r => isCont c1 && validUtf8 r
      | [] => false
    else if b < 0xF0 then
      match rest with
      | c1 :: c2 :: r =>
        (if b = 0xE0 then decide (0xA0 ≤ c1 ∧ c1 < 0xC0)
         else if b = 0xED then decide (0x80 ≤ c1 ∧ c1 < 0xA0)
         else isCont c1) && isCont c2 && validUtf8 r
      | _ => false
    else if b < 0xF5 then
      match rest with
      | c1 :: c2 :: c3 :: r =>
        (if b = 0xF0 then decide (0x90 ≤ c1 ∧ c1 < 0xC0)
         else if b = 0xF4 then decide (0x80 ≤ c1 ∧ c1 < 0x90)
         else isCont c1) && isCont c2 && isCont c3 && validUtf8 r
      | _ => false
    else false

/-- `accept_connection_registration` in `connection_manager.rs`. -/
def accept_connection_registration (connection : EntityId) : CmEvent :=
  .ResponseRegisterConnection (some connection)

/-- `accept_check_version` in `connection_manager.rs`. -/
def accept_check_version (connection : EntityId) : CmEvent :=
  .ResponseCheckVersion (some connection) ⟨true⟩

/-- `reject_check_version` in `connection_manager.rs`. -/
def reject_check_version (connection : EntityId) : CmEvent :=
  .ResponseCheckVersion (some connection) ⟨false⟩

/-- `accept_login_arbiter` in `connection_manager.rs`: success, no login
queue, status 1, region copied from the request, PvP disabled. -/
def accept_login_arbiter (connection : EntityId) (packet : CLoginArbiter) : CmEvent :=
  .ResponseLoginArbiter (some connection)
    ⟨true, false, 1, 0, packet.region, true, 0, 0⟩

/-- `reject_login_arbiter` in `connection_manager.rs`. -/
def reject_login_arbiter (connection : EntityId) (packet : CLoginArbiter) : CmEvent :=
  .ResponseLoginArbiter (some connection)
    ⟨false, false, 0, 0, packet.region, false, 0, 0⟩

/-- `assemble_loading_screen_info` in `connection_manager.rs`. -/
def assemble_loading_screen_info (connection : EntityId) : CmEvent :=
  .ResponseLoadingScreenControlInfo (some connection) ⟨false⟩

/-- `handle_post_initialization`: sends the loading-screen packet (the
remain-play-time and login-account-info packets are still a TODO in the
source). -/
def handle_post_initialization (connection : EntityId) : List CmEvent :=
  [assemble_loading_screen_info connection]

/-- `handle_request_check_version`: the updated world together with the
events pushed onto the command buffer, or `EntityNotSet` when the event
carried no connection entity.  Mirrors the source structure: length guard
first, then component lookup (missing component rejects), then the flag
update, the accept response, and post-initialization when both flags hold. -/
def handle_request_check_version (connection : Option EntityId)
    (packet : CCheckVersion) (world : World) :
    Except Error (World × List CmEvent) :=
  match connection with
  | none => .error .EntityNotSet
  | some connection =>
    if packet.version.length ≠ 2 then
      .ok (world, [reject_check_version connection])
    else
      match getComponent world connection with
      | some component =>
        let component := { component with version_checked := true }
        let world := setComponent world connection component
        .ok (world, [accept_check_version connection] ++
          (if component.verified && component.version_checked then
            handle_post_initialization connection
          else []))
      | none => .ok (world, [reject_check_version connection])

/-- `handle_request_login_arbiter`: the ticket is validated as UTF-8 before
anything else (an invalid ticket propagates an error without emitting),
then the component is looked up (missing component rejects), the `verified`
flag set, the accept response emitted, and post-initialization run when both
flags hold. -/
def handle_request_login_arbiter (connection : Option EntityId)
    (packet : CLoginArbiter) (world : World) :
    Except Error (World × List CmEvent) :=
  match connection with
  | none => .error .EntityNotSet
  | some connection =>
    if validUtf8 packet.ticket = false then .error .TicketNotUtf8
    else
      match getComponent world connection with
      | some component =>
        let component := { component with verified := true }
        let world := setComponent world connection component
        .ok (world, [accept_login_arbiter connection packet] ++
          (if component.verified && component.version_checked then
            handle_post_initialization connection
          else []))
      | none => .ok (world, [reject_login_arbiter connection packet])

/-- Observable actions of `handle_connection_registration`, in program
order: creation of the connection entity with its initial component,
insertion of the entity-to-channel mapping into the world's
`ConnectionMapping` resource, and events sent through the command buffer. -/
inductive RegAction where
  | createEntity (entity : EntityId) (component : Connection)
  | insertMapping (entity : EntityId) (channel : Nat)
  | emit (event : CmEvent)
  deriving DecidableEq, Repr

/-- `handle_connection_registration`: builds the fresh `Connection`
component, creates the entity carrying it (`new_entity` stands for the id
the command buffer allocates), inserts the registry mapping, and emits
`ResponseRegisterConnection`; the returned trace lists these actions in the
order the source performs them. -/
def handle_connection_registration (response_channel : Nat)
    (new_entity : EntityId) : Connection × List RegAction :=
  let connection : Connection := { verified := false, version_checked := false }
  (connection,
    [.createEntity new_entity connection,
     .insertMapping new_entity response_channel,
     .emit (accept_connection_registration new_entity)])

/-- Sequential handling of two request events by the connection-manager
system: the world mutation of the first handler is visible to the second,
and the command-buffer emissions concatenate in order. -/
def runTwo (f g : World → Except Error (World × List CmEvent)) (w : World) :
    Except Error (World × List CmEvent) :=
  match f w with
  | .ok (w1, evs1) =>
    match g w1 with
    | .ok (w2, evs2) => .ok (w2, evs1 ++ evs2)
    | .error e => .error e
  | .error e => .error e

/-- A concrete login-arbiter request packet with an empty (trivially valid
UTF-8) ticket. -/
def loginPacketExample : CLoginArbiter := ⟨[], [], 0, 0, 0, 0⟩

/-- C1: decoding the 28-byte body against the `CCheckVersion` schema succeeds
and yields `version[0] = {index: 0, value: 363037}` and
`version[1] = {index: 1, value: 359374}`. -/
theorem c1_check_version_decode :
    fromVecCCheckVersion checkVersionBody =
      .ok ⟨[⟨0, 363037⟩, ⟨1, 359374⟩]⟩ := by
  decide

/-- Inversion of `mapD` on a successful result. -/
theorem DeResult.mapD_ok {α β : Type} {r : DeResult α} {f : α → β} {b : β}
    (h : r.mapD f = .ok b) : ∃ a, r = .ok a ∧ b = f a := by
  cases r with
  | ok a =>
    refine ⟨a, rfl, ?_⟩
    simpa [DeResult.mapD] using h.symm
  | err e => simp [DeResult.mapD] at h
  | panic => simp [DeResult.mapD] at h

/-- Inversion of `mapD` on an error result. -/
theorem DeResult.mapD_err {α β : Type} {r : DeResult α} {f : α → β} {e : Error}
    (h : r.mapD f = .err e) : r = .err e := by
  cases r with
  | ok a => simp [DeResult.mapD] at h
  | err e2 =>
    simp only [DeResult.mapD] at h
    injection h with h1
    rw [h1]
  | panic => simp [DeResult.mapD] at h

/-- `readBytes` either succeeds or panics; it never returns an `Err`. -/
theorem readBytes_not_err (data : List Nat) (pos n : Nat) (e : Error) :
    readBytes data pos n ≠ .err e := by
  unfold readBytes
  split <;> intro h <;> exact DeResult.noConfusion h

/-- `sliceU16` either succeeds or panics; it never returns an `Err`. -/
theorem sliceU16_not_err (data : List Nat) (pos : Nat) (e : Error) :
    sliceU16 data pos ≠ .err e := by
  unfold sliceU16
  split <;> intro h <;> exact DeResult.noConfusion h

/-- `deserialize_u8` either succeeds or panics; it never returns an `Err`. -/
theorem deserialize_u8_not_err (d : Deserializer) (e : Error) :
    deserialize_u8 d ≠ .err e := by
  unfold deserialize_u8
  split <;> intro h <;> exact DeResult.noConfusion h

/-- The `impl_nums!` readers either succeed or panic; they never return an
`Err`. -/
theorem deserialize_num_not_err (size : Nat) (d : Deserializer) (e : Error) :
    deserialize_num size d ≠ .err e := by
  unfold deserialize_num
  split
  · exact fun h => DeResult.noConfusion h
  · rename_i e2 heq
    exact absurd heq (readBytes_not_err _ _ _ _)
  · exact fun h => DeResult.noConfusion h

/-- An `Err` of `deserialize_bool` is never the event-layer
`NoEventMappingForPacket`. -/
theorem deserialize_bool_err_kind (d : Deserializer) (e : Error)
    (h : deserialize_bool d = .err e) : e ≠ .NoEventMappingForPacket := by
  simp only [deserialize_bool] at h
  repeat' split at h
  all_goals first
    | exact DeResult.noConfusion h
    | (rename_i e2 heq
       exact absurd heq (deserialize_u8_not_err _ _))
    | (injection h with h1
       subst h1
       exact fun hc => Error.noConfusion hc)

/-- `scanNull` either finds a terminator, runs off the end, or panics; it
never returns an `Err`. -/
theorem scanNull_not_err (data : List Nat) :
    ∀ (fuel i : Nat) (e : Error), scanNull data i fuel ≠ .err e := by
  intro fuel
  induction fuel with
  | zero =>
    intro i e h
    exact DeResult.noConfusion h
  | succ m ih =>
    intro i e h
    simp only [scanNull] at h
    repeat' split at h
    all_goals first
      | exact DeResult.noConfusion h
      | exact ih _ _ h

/-- An `Err` of `deserialize_str` is never `NoEventMappingForPacket`. -/
theorem deserialize_str_err_kind (d : Deserializer) (e : Error)
    (h : deserialize_str d = .err e) : e ≠ .NoEventMappingForPacket := by
  simp only [deserialize_str, strPayload] at h
  repeat' split at h
  all_goals first
    | exact DeResult.noConfusion h
    | (rename_i e2 heq
       first
         | exact absurd heq (sliceU16_not_err _ _ _)
         | exact absurd heq (scanNull_not_err _ _ _ _))
    | (injection h with h1
       subst h1
       exact fun hc => Error.noConfusion hc)

/-- An `Err` of `deserialize_byte_buf` is never `NoEventMappingForPacket`. -/
theorem deserialize_byte_buf_err_kind (d : Deserializer) (e : Error)
    (h : deserialize_byte_buf d = .err e) : e ≠ .NoEventMappingForPacket := by
  simp only [deserialize_byte_buf] at h
  repeat' split at h
  all_goals first
    | exact DeResult.noConfusion h
    | (rename_i e2 heq
       exact absurd heq (sliceU16_not_err _ _ _))
    | (injection h with h1
       subst h1
       exact fun hc => Error.noConfusion hc)

/-- The `{index, value}` element decoder never returns an `Err`. -/
theorem decodeCCheckVersionEntry_not_err (d : Deserializer) (e : Error) :
    decodeCCheckVersionEntry d ≠ .err e := by
  intro h
  simp only [decodeCCheckVersionEntry, deserialize_u32] at h
  repeat' split at h
  all_goals first
    | exact DeResult.noConfusion h
    | (rename_i e2 heq
       exact absurd heq (deserialize_num_not_err _ _ _))

/-- Errors of the sequence-element loop are never `NoEventMappingForPacket`
when the element decoder's are not. -/
theorem seqElems_err_kind {α : Type} (ed : Deserializer → DeResult (α × Deserializer))
    (hed : ∀ (dd : Deserializer) (ee : Error), ed dd = .err ee →
      ee ≠ Error.NoEventMappingForPacket) :
    ∀ (count dataLen nxt oldPos : Nat) (d : Deserializer) (e : Error),
      seqElems ed count dataLen nxt oldPos d = .err e →
      e ≠ .NoEventMappingForPacket := by
  intro count
  induction count with
  | zero =>
    intro dataLen nxt oldPos d e h
    exact absurd h (fun hh => DeResult.noConfusion hh)
  | succ n ih =>
    intro dataLen nxt oldPos d e h
    simp only [seqElems] at h
    repeat' split at h
    all_goals first
      | exact DeResult.noConfusion h
      | (rename_i e2 heq
         first
           | exact absurd heq (sliceU16_not_err _ _ _)
           | (injection h with h1
              subst h1
              first
                | exact hed _ _ heq
                | exact ih _ _ _ _ _ heq))
      | (injection h with h1
         subst h1
         exact fun hc => Error.noConfusion hc)

/-- Errors of `deserialize_seq` are never `NoEventMappingForPacket` when the
element decoder's are not. -/
theorem deserialize_seq_err_kind {α : Type}
    (ed : Deserializer → DeResult (α × Deserializer))
    (hed : ∀ (dd : Deserializer) (ee : Error), ed dd = .err ee →
      ee ≠ Error.NoEventMappingForPacket)
    (d : Deserializer) (e : Error)
    (h : deserialize_seq ed d = .err e) : e ≠ .NoEventMappingForPacket := by
  simp only [deserialize_seq] at h
  repeat' split at h
  all_goals first
    | exact DeResult.noConfusion h
    | (rename_i e2 heq
       exact absurd heq (sliceU16_not_err _ _ _))
    | exact seqElems_err_kind ed hed _ _ _ _ _ _ h

/-- `from_vec::<CCheckVersion>` never fails with the event-layer
`NoEventMappingForPacket`. -/
theorem fromVecCCheckVersion_nme (v : List Nat) :
    fromVecCCheckVersion v ≠ .err .NoEventMappingForPacket := by
  intro h
  simp only [fromVecCCheckVersion, decodeCCheckVersion] at h
  cases hseq : deserialize_seq decodeCCheckVersionEntry ⟨v, 0⟩ with
  | ok ld =>
    obtain ⟨l, d1⟩ := ld
    rw [hseq] at h
    exact DeResult.noConfusion h
  | err e2 =>
    rw [hseq] at h
    injection h with h1
    rw [h1] at hseq
    exact deserialize_seq_err_kind decodeCCheckVersionEntry
      (fun dd ee hh => absurd hh (decodeCCheckVersionEntry_not_err dd ee))
      _ _ hseq rfl
  | panic =>
    rw [hseq] at h
    exact DeResult.noConfusion h

/-- `from_vec::<SCheckVersion>` never fails with `NoEventMappingForPacket`. -/
theorem fromVecSCheckVersion_nme (v : List Nat) :
    fromVecSCheckVersion v ≠ .err .NoEventMappingForPacket := by
  intro h
  simp only [fromVecSCheckVersion] at h
  repeat' split at h
  all_goals first
    | exact DeResult.noConfusion h
    | (rename_i e2 heq
       injection h with h1
       rw [h1] at heq
       exact deserialize_bool_err_kind _ _ heq rfl)

/-- `from_vec::<SLoadingScreenControlInfo>` never fails with
`NoEventMappingForPacket`. -/
theorem fromVecSLoadingScreenControlInfo_nme (v : List Nat) :
    fromVecSLoadingScreenControlInfo v ≠ .err .NoEventMappingForPacket := by
  intro h
  simp only [fromVecSLoadingScreenControlInfo] at h
  repeat' split at h
  all_goals first
    | exact DeResult.noConfusion h
    | (rename_i e2 heq
       injection h with h1
       rw [h1] at heq
       exact deserialize_bool_err_kind _ _ heq rfl)

/-- `from_vec::<CLoginArbiter>` never fails with `NoEventMappingForPacket`. -/
theorem fromVecCLoginArbiter_nme (v : List Nat) :
    fromVecCLoginArbiter v ≠ .err .NoEventMappingForPacket := by
  intro h
  simp only [fromVecCLoginArbiter, deserialize_u32] at h
  repeat' split at h
  all_goals first
    | exact DeResult.noConfusion h
    | (rename_i e2 heq
       injection h with h1
       rw [h1] at heq
       first
         | exact absurd heq (deserialize_num_not_err _ _ _)
         | exact deserialize_str_err_kind _ _ heq rfl
         | exact deserialize_byte_buf_err_kind _ _ heq rfl)

/-- `from_vec::<SLoginArbiter>` never fails with `NoEventMappingForPacket`. -/
theorem fromVecSLoginArbiter_nme (v : List Nat) :
    fromVecSLoginArbiter v ≠ .err .NoEventMappingForPacket := by
  intro h
  simp only [fromVecSLoginArbiter, deserialize_u32] at h
  repeat' split at h
  all_goals first
    | exact DeResult.noConfusion h
    | (rename_i e2 heq
       injection h with h1
       rw [h1] at heq
       first
         | exact absurd heq (deserialize_num_not_err _ _ _)
         | exact deserialize_bool_err_kind _ _ heq rfl)

/-- C2 counterexample: `new_from_packet` does construct events for
response-direction opcodes.  At the concrete input
`(connection 9, S_CHECK_VERSION, body [1])` it returns the
`ResponseCheckVersion` event rather than the `NoEventMappingForPacket`
error the claim prescribes for every response-direction opcode. -/
theorem c2_counterexample :
    Event.new_from_packet 9 .S_CHECK_VERSION [1] =
        .ok (.ResponseCheckVersion 9 ⟨true⟩) ∧
    Event.new_from_packet 9 .S_CHECK_VERSION [1] ≠
        .err .NoEventMappingForPacket := by
  decide

/-- C2 as amended: `new_from_packet` fails with `NoEventMappingForPacket`
exactly for the opcodes with no packet-event mapping at all — an opcode with
a mapping never produces that error (its decode failures keep their codec
error kind) — and every event it successfully constructs (a `Request*` or a
`Response*` variant alike) is the packet-event variant mapped to the given
opcode. -/
theorem c2_new_from_packet_dispatch (id : EntityId) (op : Opcode) (data : List Nat) :
    (opcodeHasPacketMapping op = false →
      Event.new_from_packet id op data = .err .NoEventMappingForPacket) ∧
    (opcodeHasPacketMapping op = true →
      Event.new_from_packet id op data ≠ .err .NoEventMappingForPacket) ∧
    (∀ e : Event, Event.new_from_packet id op data = .ok e → e.opcode = some op) := by
  refine ⟨?_, ?_, ?_⟩
  · intro h
    cases op <;> simp_all [opcodeHasPacketMapping, Event.new_from_packet]
  · intro hm h
    cases op
    case UNMAPPED code => simp [opcodeHasPacketMapping] at hm
    all_goals
      simp only [Event.new_from_packet] at h
      have h2 := DeResult.mapD_err h
      first
        | exact absurd h2 (fromVecCCheckVersion_nme _)
        | exact absurd h2 (fromVecCLoginArbiter_nme _)
        | exact absurd h2 (fromVecSLoginArbiter_nme _)
        | exact absurd h2 (fromVecSCheckVersion_nme _)
        | exact absurd h2 (fromVecSLoadingScreenControlInfo_nme _)
        | exact DeResult.noConfusion h2
  · intro e he
    cases op
    case UNMAPPED code => simp [Event.new_from_packet] at he
    all_goals
      simp only [Event.new_from_packet] at he
      obtain ⟨a, -, rfl⟩ := DeResult.mapD_ok he
      rfl

/-- Witness for `c2_new_from_packet_dispatch` at concrete inputs: an opcode
outside the packet-event list is rejected, a mapped opcode does not produce
the mapping error, and a successful decode of the version-check body
produces an event whose opcode is the one dispatched on. -/
theorem c2_new_from_packet_dispatch_witness :
    Event.new_from_packet 3 (.UNMAPPED 42) [] = .err .NoEventMappingForPacket ∧
    Event.new_from_packet 7 .C_CHECK_VERSION checkVersionBody ≠
      .err .NoEventMappingForPacket ∧
    (Event.RequestCheckVersion 7 ⟨[⟨0, 363037⟩, ⟨1, 359374⟩]⟩).opcode =
      some .C_CHECK_VERSION := by
  exact ⟨(c2_new_from_packet_dispatch 3 (.UNMAPPED 42) []).1 (by decide),
         (c2_new_from_packet_dispatch 7 .C_CHECK_VERSION checkVersionBody).2.1
           (by decide),
         (c2_new_from_packet_dispatch 7 .C_CHECK_VERSION checkVersionBody).2.2 _
           (by decide)⟩

/-- On any successful run of the element loop, the final cursor is `oldPos`,
the position captured right after the four-byte list header — whatever the
element decoder did and wherever the element payloads lay. -/
theorem seqElems_ok_pos {α : Type} (ed : Deserializer → DeResult (α × Deserializer)) :
    ∀ (count dataLen nextOff oldPos : Nat) (d : Deserializer) (xs : List α)
      (d' : Deserializer),
      seqElems ed count dataLen nextOff oldPos d = .ok (xs, d') → d'.pos = oldPos := by
  intro count
  induction count with
  | zero =>
    intro dataLen nextOff oldPos d xs d' h
    simp only [seqElems, DeResult.ok.injEq, Prod.mk.injEq] at h
    obtain ⟨-, h2⟩ := h
    subst h2
    rfl
  | succ n ih =>
    intro dataLen nextOff oldPos d xs d' h
    simp only [seqElems] at h
    repeat' split at h
    all_goals first
      | exact DeResult.noConfusion h
      | (simp only [DeResult.ok.injEq, Prod.mk.injEq] at h
         obtain ⟨-, h2⟩ := h
         subst h2
         exact ih _ _ _ _ _ _ (by assumption))

/-- C3: the sequence decoder follows the linked-list protocol, at every
element.  (1) Whenever all elements decode successfully, the final cursor is
the byte immediately after the four-byte list header, regardless of where
the element payloads lay and of what the element decoder did.  (2) The
header is parsed as a `u16` count and a `u16` first offset, and the element
loop starts at the resolved first offset with the post-header cursor as the
restore point — so every loop state below is the processing state of some
element `i`.  For any remaining count and any expected offset: (3) an
expected offset at or past the end of the captured data length fails with
`OffsetOutsideData`; (4) a stored `self_offset` resolving to anything but
the expected offset fails with `InvalidSeqEntry` at the mismatched resolved
offset; (5) a passing element is decoded inline right after its four
prologue bytes, with the loop continuing at the resolved `next_offset`; and
(6) when no elements remain the cursor is restored to the saved post-header
position. -/
theorem c3_seq_decode_protocol :
    (∀ (α : Type) (ed : Deserializer → DeResult (α × Deserializer)) (d : Deserializer)
        (xs : List α) (d' : Deserializer),
        deserialize_seq ed d = .ok (xs, d') → d'.pos = d.pos + 4)
    ∧ (∀ (α : Type) (ed : Deserializer → DeResult (α × Deserializer)) (d : Deserializer)
        (count tmp : Nat),
        sliceU16 d.data d.pos = .ok count →
        sliceU16 d.data (d.pos + 2) = .ok tmp →
        deserialize_seq ed d =
          seqElems ed count d.data.length (abs_offset tmp) (d.pos + 4)
            ⟨d.data, d.pos + 4⟩)
    ∧ (∀ (α : Type) (ed : Deserializer → DeResult (α × Deserializer))
        (count dataLen nxt oldPos : Nat) (d : Deserializer),
        nxt ≥ dataLen →
        seqElems ed (count + 1) dataLen nxt oldPos d =
          .err (.OffsetOutsideData d.pos nxt))
    ∧ (∀ (α : Type) (ed : Deserializer → DeResult (α × Deserializer))
        (count dataLen nxt oldPos : Nat) (d : Deserializer) (s : Nat),
        nxt < dataLen →
        sliceU16 d.data nxt = .ok s →
        abs_offset s ≠ nxt →
        seqElems ed (count + 1) dataLen nxt oldPos d =
          .err (.InvalidSeqEntry (abs_offset s)))
    ∧ (∀ (α : Type) (ed : Deserializer → DeResult (α × Deserializer))
        (count dataLen nxt oldPos : Nat) (d : Deserializer) (s s2 : Nat),
        nxt < dataLen →
        sliceU16 d.data nxt = .ok s →
        abs_offset s = nxt →
        sliceU16 d.data (nxt + 2) = .ok s2 →
        seqElems ed (count + 1) dataLen nxt oldPos d =
          match ed ⟨d.data, nxt + 4⟩ with
          | .ok (a, d4) =>
            (match seqElems ed count dataLen (abs_offset s2) oldPos d4 with
             | .ok (rest, d5) => .ok (a :: rest, d5)
             | .err e => .err e
             | .panic => .panic)
          | .err e => .err e
          | .panic => .panic)
    ∧ (∀ (α : Type) (ed : Deserializer → DeResult (α × Deserializer))
        (dataLen nxt oldPos : Nat) (d : Deserializer),
        seqElems ed 0 dataLen nxt oldPos d = .ok ([], ⟨d.data, oldPos⟩)) := by
  refine ⟨?_, ?_, ?_, ?_, ?_, ?_⟩
  · intro α ed d xs d' h
    revert h
    unfold deserialize_seq
    cases h1 : sliceU16 d.data d.pos with
    | ok count =>
      cases h2 : sliceU16 d.data (d.pos + 2) with
      | ok tmp =>
        intro h
        exact seqElems_ok_pos ed count _ _ _ _ xs d' h
      | err e => intro h; exact DeResult.noConfusion h
      | panic => intro h; exact DeResult.noConfusion h
    | err e => intro h; exact DeResult.noConfusion h
    | panic => intro h; exact DeResult.noConfusion h
  · intro α ed d count tmp h1 h2
    simp only [deserialize_seq, h1, h2]
  · intro α ed count dataLen nxt oldPos d hge
    simp [seqElems, hge]
  · intro α ed count dataLen nxt oldPos d s hb hs hne
    have hnb : ¬ nxt ≥ dataLen := by omega
    simp [seqElems, hs, hnb, hne]
  · intro α ed count dataLen nxt oldPos d s s2 hb hs hself hs2
    have hnb : ¬ nxt ≥ dataLen := by omega
    have hss : ¬ (abs_offset s ≠ nxt) := not_not_intro hself
    cases he : ed ⟨d.data, nxt + 4⟩ with
    | ok ad =>
      obtain ⟨a, d4⟩ := ad
      cases hrec : seqElems ed count dataLen (abs_offset s2) oldPos d4 with
      | ok rd =>
        obtain ⟨rest, d5⟩ := rd
        simp [seqElems, hs, hs2, hnb, hss, he, hrec]
      | err e => simp [seqElems, hs, hs2, hnb, hss, he, hrec]
      | panic => simp [seqElems, hs, hs2, hnb, hss, he, hrec]
    | err e => simp [seqElems, hs, hs2, hnb, hss, he]
    | panic => simp [seqElems, hs, hs2, hnb, hss, he]
  · intro α ed dataLen nxt oldPos d
    simp [seqElems]

/-- Witness for `c3_seq_decode_protocol`, applying each part at concrete
buffers: the version-check body (success, final cursor 4 = 0 + 4, and the
header parse handing count 2 and first offset 4 to the loop), an expected
offset past the end, a mismatched `self_offset` (`InvalidSeqEntry 5`), a
well-formed one-element step, and the cursor-restoring base case. -/
theorem c3_seq_decode_protocol_witness :
    (4 : Nat) = 0 + 4 ∧
    deserialize_seq decodeCCheckVersionEntry ⟨checkVersionBody, 0⟩ =
      seqElems decodeCCheckVersionEntry 2 28 4 4 ⟨checkVersionBody, 4⟩ ∧
    seqElems decodeCCheckVersionEntry 1 8 9 4 ⟨seqBadSelfOffset, 4⟩ =
      .err (.OffsetOutsideData 4 9) ∧
    seqElems decodeCCheckVersionEntry 1 8 4 4 ⟨seqBadSelfOffset, 4⟩ =
      .err (.InvalidSeqEntry 5) ∧
    seqElems decodeCCheckVersionEntry 1 16 4 4 ⟨seqSingleGood, 4⟩ =
      .ok ([⟨42, 7⟩], ⟨seqSingleGood, 4⟩) ∧
    seqElems decodeCCheckVersionEntry 0 11 7 3 ⟨[5, 6], 9⟩ =
      .ok ([], ⟨[5, 6], 3⟩) := by
  refine ⟨?_, ?_, ?_, ?_, ?_, ?_⟩
  · exact c3_seq_decode_protocol.1 CCheckVersionEntry decodeCCheckVersionEntry
      ⟨checkVersionBody, 0⟩ [⟨0, 363037⟩, ⟨1, 359374⟩] ⟨checkVersionBody, 4⟩ (by decide)
  · exact c3_seq_decode_protocol.2.1 CCheckVersionEntry decodeCCheckVersionEntry
      ⟨checkVersionBody, 0⟩ 2 8 (by decide) (by decide)
  · exact c3_seq_decode_protocol.2.2.1 CCheckVersionEntry decodeCCheckVersionEntry
      0 8 9 4 ⟨seqBadSelfOffset, 4⟩ (by decide)
  · exact c3_seq_decode_protocol.2.2.2.1 CCheckVersionEntry decodeCCheckVersionEntry
      0 8 4 4 ⟨seqBadSelfOffset, 4⟩ 9 (by decide) (by decide) (by decide)
  · exact (c3_seq_decode_protocol.2.2.2.2.1 CCheckVersionEntry decodeCCheckVersionEntry
      0 16 4 4 ⟨seqSingleGood, 4⟩ 8 0 (by decide) (by decide) (by decide)
      (by decide)).trans (by decide)
  · exact c3_seq_decode_protocol.2.2.2.2.2 CCheckVersionEntry decodeCCheckVersionEntry
      11 7 3 ⟨[5, 6], 9⟩

/-- C6 counterexample: a zero offset header is not treated as an absent
field.  The body `[7, 0, 0, 65, 0, 0]` with the string header at position 1
(value 0) decodes to the two code units read from body position 0 onwards —
and changing the payload byte at position 3 changes the decoded value, so
payload bytes are dereferenced. -/
theorem c6_counterexample :
    deserialize_str ⟨[7, 0, 0, 65, 0, 0], 1⟩ =
      .ok ([7, 16640], ⟨[7, 0, 0, 65, 0, 0], 3⟩) ∧
    deserialize_str ⟨[7, 0, 0, 66, 0, 0], 1⟩ =
      .ok ([7, 16896], ⟨[7, 0, 0, 66, 0, 0], 3⟩) ∧
    ([7, 16640] : List Nat) ≠ [7, 16896] := by
  decide

/-- C6 as amended: an offset value of 0 is special-cased only in the offset
translation — `abs_offset` maps it to body position 0 instead of subtracting
4 — and the decoders then read the payload at body position 0.  With a zero
header, `deserialize_str` runs its payload scan from position 0 whenever the
body is non-empty, and `deserialize_byte_buf` returns the first `len` body
bytes whenever `len` fits in the body. -/
theorem c6_zero_offset_reads_start (data : List Nat) (pos : Nat) :
    abs_offset 0 = 0 ∧
    (pos + 2 ≤ data.length → u16LE data pos = 0 → 0 < data.length →
      deserialize_str ⟨data, pos⟩ = strPayload data 0 (pos + 2)) ∧
    (∀ len : Nat, pos + 4 ≤ data.length → u16LE data pos = 0 →
      u16LE data (pos + 2) = len → len ≤ data.length →
      deserialize_byte_buf ⟨data, pos⟩ = .ok (data.take len, ⟨data, pos + 4⟩)) := by
  refine ⟨rfl, ?_, ?_⟩
  · intro hle hz hpos
    have hs : sliceU16 data pos = .ok 0 := by rw [sliceU16, if_pos hle, hz]
    have hub : ¬ ((0 : Nat) ≥ data.length) := by omega
    simp [deserialize_str, hs, abs_offset, hub]
  · intro len h4 hz hlen hle
    have hb1 : pos + 2 ≤ data.length := by omega
    have hb2 : pos + 2 + 2 ≤ data.length := by omega
    have hs1 : sliceU16 data pos = .ok 0 := by rw [sliceU16, if_pos hb1, hz]
    have hs2 : sliceU16 data (pos + 2) = .ok len := by rw [sliceU16, if_pos hb2, hlen]
    have ha0 : abs_offset 0 = 0 := rfl
    have hngt : ¬ (abs_offset 0 + len > data.length) := by
      rw [ha0]
      omega
    simp [deserialize_byte_buf, hs1, hs2, hngt, abs_offset]
    omega

/-- Witness for `c6_zero_offset_reads_start` at concrete inputs: a string
field with header 0 proceeds into the payload scan at position 0, and a
byte-buffer field with header `(0, 2)` returns the first two body bytes —
the header bytes themselves. -/
theorem c6_zero_offset_reads_start_witness :
    deserialize_str ⟨[0, 0], 0⟩ = strPayload [0, 0] 0 2 ∧
    deserialize_byte_buf ⟨[0, 0, 2, 0], 0⟩ = .ok ([0, 0], ⟨[0, 0, 2, 0], 4⟩) := by
  exact ⟨(c6_zero_offset_reads_start [0, 0] 0).2.1 (by decide) (by decide) (by decide),
         (c6_zero_offset_reads_start [0, 0, 2, 0] 0).2.2 2 (by decide) (by decide)
           (by decide) (by decide)⟩

/-- When the scan region holds no two-byte terminator at any even step, the
scan either panics — when the last probed index is the final byte of the
buffer and that byte is zero, so the second conjunct of
`data[i] == 0 && data[i+1] == 0` indexes one past the end — or runs off the
end and reports no terminator. -/
theorem scanNull_no_terminator (data : List Nat) :
    ∀ (fuel i : Nat), data.length ≤ i + fuel →
      (∀ j, i ≤ j → (j - i) % 2 = 0 → j + 1 < data.length →
        ¬(data.getD j 0 = 0 ∧ data.getD (j + 1) 0 = 0)) →
      scanNull data i fuel =
        if i < data.length ∧ (data.length - 1 - i) % 2 = 0 ∧
            data.getD (data.length - 1) 0 = 0
        then .panic else .ok none := by
  intro fuel
  induction fuel with
  | zero =>
    intro i hf hno
    rw [scanNull, if_neg (fun hC => absurd hC.1 (by omega))]
  | succ m ih =>
    intro i hf hno
    rw [scanNull]
    by_cases hi : i < data.length
    · rw [if_pos hi]
      by_cases hz : data.getD i 0 = 0
      · rw [if_pos hz]
        by_cases hi1 : i + 1 < data.length
        · have hnt := hno i le_rfl (by omega) hi1
          have hz1 : ¬ data.getD (i + 1) 0 = 0 := fun hh => hnt ⟨hz, hh⟩
          rw [if_pos hi1, if_neg hz1]
          rw [ih (i + 2) (by omega) (fun j hj hp hb => hno j (by omega) (by omega) hb)]
          have hcond : (i + 2 < data.length ∧ (data.length - 1 - (i + 2)) % 2 = 0 ∧
              data.getD (data.length - 1) 0 = 0) ↔
              (i < data.length ∧ (data.length - 1 - i) % 2 = 0 ∧
              data.getD (data.length - 1) 0 = 0) := by
            constructor
            · rintro ⟨a, b, c⟩
              exact ⟨by omega, by omega, c⟩
            · rintro ⟨a, b, c⟩
              have hlen : i + 2 < data.length := by omega
              exact ⟨hlen, by omega, c⟩
          simp only [hcond]
        · rw [if_neg hi1]
          have hllast : data.length - 1 = i := by omega
          rw [if_pos ⟨hi, by omega, by rw [hllast]; exact hz⟩]
      · rw [if_neg hz]
        rw [ih (i + 2) (by omega) (fun j hj hp hb => hno j (by omega) (by omega) hb)]
        have hcond : (i + 2 < data.length ∧ (data.length - 1 - (i + 2)) % 2 = 0 ∧
            data.getD (data.length - 1) 0 = 0) ↔
            (i < data.length ∧ (data.length - 1 - i) % 2 = 0 ∧
            data.getD (data.length - 1) 0 = 0) := by
          constructor
          · rintro ⟨a, b, c⟩
            exact ⟨by omega, by omega, c⟩
          · rintro ⟨a, b, c⟩
            have hne : data.length ≠ i + 1 := by
              intro he
              apply hz
              have h9 : data.length - 1 = i := by omega
              rw [h9] at c
              exact c
            have hlen : i + 2 < data.length := by omega
            exact ⟨hlen, by omega, c⟩
        simp only [hcond]
    · rw [if_neg hi, if_neg (fun hC => absurd hC.1 hi)]

/-- C7 as amended: when the string payload region (scanning in two-byte steps
from the resolved in-bounds offset) contains no two-byte null terminator,
`deserialize_str` returns `StringNotNullTerminated` — except when the scan
reaches the final byte of an odd-length region and that byte is 0, in which
case the short-circuited bounds-unchecked read of `data[i + 1]` indexes one
past the end of the buffer and the decode aborts instead of returning an
error. -/
theorem c7_missing_terminator (data : List Nat) (pos tmp : Nat)
    (h1 : sliceU16 data pos = .ok tmp)
    (hb : abs_offset tmp < data.length)
    (hno : ∀ j, abs_offset tmp ≤ j → (j - abs_offset tmp) % 2 = 0 →
      j + 1 < data.length →
      ¬(data.getD j 0 = 0 ∧ data.getD (j + 1) 0 = 0)) :
    deserialize_str ⟨data, pos⟩ =
      if (data.length - 1 - abs_offset tmp) % 2 = 0 ∧
          data.getD (data.length - 1) 0 = 0
      then .panic
      else .err (.StringNotNullTerminated (pos + 2)) := by
  have hrw := scanNull_no_terminator data data.length (abs_offset tmp) (by omega) hno
  have hnl : ¬ abs_offset tmp ≥ data.length := not_le.mpr hb
  by_cases hc : ((data.length - 1 - abs_offset tmp) % 2 = 0 ∧
      data.getD (data.length - 1) 0 = 0)
  · have hscan : scanNull data (abs_offset tmp) data.length = .panic := by
      rw [hrw, if_pos ⟨hb, hc.1, hc.2⟩]
    rw [if_pos hc]
    simp [deserialize_str, strPayload, h1, hscan, hnl]
  · have hscan : scanNull data (abs_offset tmp) data.length = .ok none := by
      rw [hrw, if_neg (fun hh => hc ⟨hh.2.1, hh.2.2⟩)]
    rw [if_neg hc]
    simp [deserialize_str, strPayload, h1, hscan, hnl]

/-- C7 counterexample: the body `[8, 0, 0, 0, 0]` has its string header
resolving to body position 4 and no complete two-byte terminator in the
scan region, yet decoding aborts with an out-of-bounds read (the scan probes
`data[4] == 0` and then indexes `data[5]`) instead of returning the
`StringNotNullTerminated` error the claim prescribes. -/
theorem c7_counterexample :
    deserialize_str ⟨[8, 0, 0, 0, 0], 0⟩ = .panic ∧
    deserialize_str ⟨[8, 0, 0, 0, 0], 0⟩ ≠ .err (.StringNotNullTerminated 2) := by
  decide

/-- Witness for `c7_missing_terminator` at a concrete buffer: header 6
resolves to body position 2, the even-length region `[65, 65]` holds no
terminator, and the decode returns `StringNotNullTerminated` at cursor 2. -/
theorem c7_missing_terminator_witness :
    deserialize_str ⟨[6, 0, 65, 65], 0⟩ = .err (.StringNotNullTerminated 2) := by
  have h := c7_missing_terminator [6, 0, 65, 65] 0 6 (by decide) (by decide)
    (by
      intro j hj hp hb2
      have ha : abs_offset 6 = 2 := rfl
      rw [ha] at hj hp
      have hlen4 : ([6, 0, 65, 65] : List Nat).length = 4 := rfl
      rw [hlen4] at hb2
      have hj2 : j = 2 := by omega
      subst hj2
      decide)
  exact h.trans (by decide)

/-- C9: the primitive deserializers index the data vector without a bounds
check, so on a buffer with fewer remaining bytes than the primitive's width
the decode does not return an `Err` of the codec's error taxonomy — it
aborts with an out-of-bounds index. -/
theorem c9_short_primitive_panics (d : Deserializer) :
    (d.data.length < d.pos + 1 →
      deserialize_u8 d = .panic ∧ deserialize_i8 d = .panic) ∧
    (d.data.length < d.pos + 2 →
      deserialize_u16 d = .panic ∧ deserialize_i16 d = .panic) ∧
    (d.data.length < d.pos + 4 →
      deserialize_u32 d = .panic ∧ deserialize_i32 d = .panic ∧
      deserialize_f32 d = .panic) ∧
    (d.data.length < d.pos + 8 →
      deserialize_u64 d = .panic ∧ deserialize_i64 d = .panic ∧
      deserialize_f64 d = .panic) := by
  refine ⟨fun h => ?_, fun h => ?_, fun h => ?_, fun h => ?_⟩
  · have h1 : ¬ d.pos < d.data.length := by omega
    exact ⟨by simp [deserialize_u8, h1], by simp [deserialize_i8, h1]⟩
  · have h1 : ¬ (d.pos + 2 ≤ d.data.length) := by omega
    exact ⟨by simp [deserialize_u16, deserialize_num, readBytes, h1],
           by simp [deserialize_i16, deserialize_num, readBytes, h1]⟩
  · have h1 : ¬ (d.pos + 4 ≤ d.data.length) := by omega
    exact ⟨by simp [deserialize_u32, deserialize_num, readBytes, h1],
           by simp [deserialize_i32, deserialize_num, readBytes, h1],
           by simp [deserialize_f32, deserialize_num, readBytes, h1]⟩
  · have h1 : ¬ (d.pos + 8 ≤ d.data.length) := by omega
    exact ⟨by simp [deserialize_u64, deserialize_num, readBytes, h1],
           by simp [deserialize_i64, deserialize_num, readBytes, h1],
           by simp [deserialize_f64, deserialize_num, readBytes, h1]⟩

/-- Witness for `c9_short_primitive_panics` on the empty buffer: each width
class aborts rather than erroring. -/
theorem c9_short_primitive_panics_witness :
    deserialize_u8 ⟨[], 0⟩ = .panic ∧ deserialize_u16 ⟨[], 0⟩ = .panic ∧
    deserialize_u32 ⟨[], 0⟩ = .panic ∧ deserialize_u64 ⟨[], 0⟩ = .panic := by
  exact ⟨((c9_short_primitive_panics ⟨[], 0⟩).1 (by decide)).1,
         ((c9_short_primitive_panics ⟨[], 0⟩).2.1 (by decide)).1,
         ((c9_short_primitive_panics ⟨[], 0⟩).2.2.1 (by decide)).1,
         ((c9_short_primitive_panics ⟨[], 0⟩).2.2.2 (by decide)).1⟩

/-- C5: the version-array length guard.  A version array whose length is not
2 makes the handler emit `ResponseCheckVersion{ok: false}` and leave the
world — in particular the `Connection` component and its `version_checked`
flag — unchanged; with length exactly 2 and an existing component, the
handler sets `version_checked`, emits `ResponseCheckVersion{ok: true}`, and
additionally runs post-initialization when `verified` already held. -/
theorem c5_version_length_guard (c : EntityId) (packet : CCheckVersion)
    (w : World) :
    (packet.version.length ≠ 2 →
      handle_request_check_version (some c) packet w =
        .ok (w, [reject_check_version c])) ∧
    (∀ comp : Connection, packet.version.length = 2 →
      getComponent w c = some comp →
      handle_request_check_version (some c) packet w =
        .ok (setComponent w c { comp with version_checked := true },
          accept_check_version c ::
            (if comp.verified then [assemble_loading_screen_info c] else []))) := by
  constructor
  · intro h
    simp [handle_request_check_version, h]
  · intro comp h2 hc
    simp only [handle_request_check_version, h2, hc, handle_post_initialization]
    cases hv : comp.verified <;> simp [hv, h2]

/-- Witness for `c5_version_length_guard` at concrete inputs: a one-entry
version array is rejected without touching the fresh component, and the
two-entry array of the version-check scenario flips `version_checked` and is
accepted. -/
theorem c5_version_length_guard_witness :
    handle_request_check_version (some 0) ⟨[⟨0, 1⟩]⟩ [(0, ⟨false, false⟩)] =
      .ok ([(0, ⟨false, false⟩)], [reject_check_version 0]) ∧
    handle_request_check_version (some 0) ⟨[⟨0, 363037⟩, ⟨1, 359374⟩]⟩
        [(0, ⟨false, false⟩)] =
      .ok ([(0, ⟨false, true⟩)], [accept_check_version 0]) := by
  refine ⟨(c5_version_length_guard 0 ⟨[⟨0, 1⟩]⟩ [(0, ⟨false, false⟩)]).1
    (by decide), ?_⟩
  have h := (c5_version_length_guard 0 ⟨[⟨0, 363037⟩, ⟨1, 359374⟩]⟩
    [(0, ⟨false, false⟩)]).2 ⟨false, false⟩ (by decide) (by rfl)
  exact h.trans (by rfl)

/-- C4 counterexample: when `RequestLoginArbiter` arrives before
`RequestCheckVersion`, the emitted responses are the login-arbiter accept
first — not the order `ResponseCheckVersion, ResponseLoginArbiter,
ResponseLoadingScreenControlInfo` the claim prescribes for either arrival
order. -/
theorem c4_counterexample :
    runTwo (handle_request_login_arbiter (some 0) loginPacketExample)
        (handle_request_check_version (some 0) ⟨[⟨0, 363037⟩, ⟨1, 359374⟩]⟩)
        [(0, ⟨false, false⟩)] =
      .ok ([(0, ⟨true, true⟩)],
        [accept_login_arbiter 0 loginPacketExample, accept_check_version 0,
         assemble_loading_screen_info 0]) ∧
    [accept_login_arbiter 0 loginPacketExample, accept_check_version 0,
     assemble_loading_screen_info 0] ≠
      [accept_check_version 0, accept_login_arbiter 0 loginPacketExample,
       assemble_loading_screen_info 0] := by
  exact ⟨by rfl, by decide⟩

/-- C4 as amended: after a valid `RequestCheckVersion` (two-entry version
array) and a `RequestLoginArbiter` (UTF-8 ticket) have both been handled for
a fresh connection, both flags are set and the responses are the two accepts
in arrival order, followed immediately by
`ResponseLoadingScreenControlInfo{custom_screen_enabled: false}`. -/
theorem c4_double_flag_post_init (e : EntityId) (cv : CCheckVersion)
    (la : CLoginArbiter) (h1 : cv.version.length = 2)
    (h2 : validUtf8 la.ticket = true) :
    runTwo (handle_request_check_version (some e) cv)
        (handle_request_login_arbiter (some e) la) [(e, ⟨false, false⟩)] =
      .ok ([(e, ⟨true, true⟩)],
        [accept_check_version e, accept_login_arbiter e la,
         assemble_loading_screen_info e]) ∧
    runTwo (handle_request_login_arbiter (some e) la)
        (handle_request_check_version (some e) cv) [(e, ⟨false, false⟩)] =
      .ok ([(e, ⟨true, true⟩)],
        [accept_login_arbiter e la, accept_check_version e,
         assemble_loading_screen_info e]) := by
  constructor
  · simp [runTwo, handle_request_check_version, handle_request_login_arbiter,
      h1, h2, getComponent, setComponent, handle_post_initialization]
  · simp [runTwo, handle_request_check_version, handle_request_login_arbiter,
      h1, h2, getComponent, setComponent, handle_post_initialization]

/-- Witness for `c4_double_flag_post_init` at concrete inputs: connection 5,
the version-check scenario entries, and an empty ticket. -/
theorem c4_double_flag_post_init_witness :
    runTwo (handle_request_check_version (some 5) ⟨[⟨0, 363037⟩, ⟨1, 359374⟩]⟩)
        (handle_request_login_arbiter (some 5) loginPacketExample)
        [(5, ⟨false, false⟩)] =
      .ok ([(5, ⟨true, true⟩)],
        [accept_check_version 5, accept_login_arbiter 5 loginPacketExample,
         assemble_loading_screen_info 5]) := by
  exact (c4_double_flag_post_init 5 ⟨[⟨0, 363037⟩, ⟨1, 359374⟩]⟩
    loginPacketExample (by decide) (by decide)).1

/-- C10: every `Connection` component created on registration starts with
both flags `false`, and in the handler's action trace the registry insertion
of the entity-to-channel mapping precedes the emission of the
`ResponseRegisterConnection` event carrying the new entity id. -/
theorem c10_registration_invariants (response_channel : Nat)
    (new_entity : EntityId) :
    (handle_connection_registration response_channel new_entity).1 =
      { verified := false, version_checked := false } ∧
    ∃ pre mid post : List RegAction,
      (handle_connection_registration response_channel new_entity).2 =
        pre ++ RegAction.insertMapping new_entity response_channel ::
          (mid ++ RegAction.emit (accept_connection_registration new_entity) ::
            post) := by
  exact ⟨rfl, [RegAction.createEntity new_entity ⟨false, false⟩], [], [], rfl⟩
